import Mathlib

/-!
Verification of the MCP-HauteGaronne request dispatcher and protocol core.

This file is a shallow embedding of the repository's JavaScript source:
  * `src/httpServer.js` (the `handler` function): the POST `/message`
    classification — session-id extraction and single-session inference,
    the stateless JSON-RPC path, and the stateful forward/404 path.
  * `src/mcpServer.js`: `getDatasetCatalog` (the 5-minute global cache),
    `handleRequestDirectly`, and the request handlers registered by
    `createMCPServer` (tools/call, resources/list, resources/read,
    prompts/get).

Modelling conventions:
  * JavaScript `undefined`/absent fields are `Option.none`; `x || d` on
    strings and numbers is modelled by `jsOrStr`/`jsOrInt` (JS falsiness:
    `""` and `0` take the default); destructuring defaults
    (`const { limit = 100 } = args`, which fire only on `undefined`) are
    `Option.getD`.
  * An awaited upstream HTTP call is modelled by its outcome, a value of
    `Except String _` carried in an `Env` record (`.error` models a thrown
    axios error with its message). The cache logic of `getDatasetCatalog`
    is modelled separately as an explicit state-passing function.
  * `JSON.stringify(x, null, 2)` is modelled by `reprStr`: the exact JSON
    text layout is not reproduced, but the function is computable and
    which values appear in the text is preserved.
  * All modelled functions are total, which reflects the source's
    catch-all discipline: the outer try/catch 500 branches of the
    dispatcher are unreachable in the model because no modelled step
    throws past its own handler.
  * GET /message (stream open), GET /ping, OPTIONS and the unknown-route
    branch are outside the claims and are not modelled.
-/

/-- JS string truthiness for `x || d`: `undefined`, `null` and `""` are
falsy and take the default. -/
def jsOrStr (x : Option String) (d : String) : String :=
  match x with
  | some s => if s = "" then d else s
  | none => d

/-- JS number truthiness for `x || d`: `undefined`, `null` and `0` are
falsy and take the default (JS numbers are modelled as `Int`; `NaN` is out
of scope). -/
def jsOrInt (x : Option Int) (d : Int) : Int :=
  match x with
  | some n => if n = 0 then d else n
  | none => d

/-- `if (x) use x` on an optional string: `""` behaves as absent
(used for the `where`/`select` request params of `query_dataset`). -/
def jsTruthyStr (x : Option String) : Option String :=
  match x with
  | some s => if s = "" then none else some s
  | none => none

/-- JS template-literal rendering of a possibly-undefined string. -/
def jsShowOptStr (x : Option String) : String :=
  match x with
  | some s => s
  | none => "undefined"

/-- `String.prototype.includes`: substring test. `splitOn` yields at least
two fragments exactly when the needle occurs; the empty needle is always
found, as in JS. -/
def jsIncludes (s sub : String) : Bool :=
  if sub = "" then true else (s.splitOn sub).length ≥ 2

/-- Clamp one index argument of `Array.prototype.slice` to `[0, len]`:
negative indices count from the end. -/
def jsSliceBound (len : Nat) (i : Int) : Nat :=
  if i < 0 then ((len : Int) + i).toNat else min i.toNat len

/-- `Array.prototype.slice(s, e)` with JS index clamping. -/
def jsSlice {α : Type} (l : List α) (s e : Int) : List α :=
  let a := jsSliceBound l.length s
  let b := jsSliceBound l.length e
  (l.drop a).take (b - a)

/-- `ds.metas?.default` of a catalog entry: the metadata object that the
source reads `title`, `description` and `keyword` from. -/
structure DatasetMeta where
  title : Option String := none
  description : Option String := none
  keyword : Option (List String) := none
deriving DecidableEq, Repr

/-- One catalog entry. `metasDefault` models the `metas?.default` chain of
the source (the two optional hops collapsed into one optional field). -/
structure Dataset where
  datasetid : String
  metasDefault : Option DatasetMeta := none
deriving DecidableEq, Repr

/-- The upstream catalog response body; the source reads
`catalog.datasets || []`. -/
structure Catalog where
  datasets : Option (List Dataset) := none
deriving DecidableEq, Repr

/-- The upstream `/records` response body; the source reads
`response.data.results || []` and `response.data.total_count || len`. Each
record payload is carried as an opaque string. -/
structure RecordsResp where
  results : Option (List String) := none
  total_count : Option Int := none
deriving DecidableEq, Repr

/-- Outcomes of the awaited upstream calls made while serving one request:
`catalog` is the outcome of `getDatasetCatalog()` (its cache behaviour is
modelled separately below), `records` the outcome of the
`/catalog/datasets/{id}/records` GET for the given id, limit, offset,
where and select, and `info` the outcome of the `/catalog/datasets/{id}`
GET with its JSON payload carried as an opaque string. An `.error` value
models a thrown error carrying `error.message`. -/
structure Env where
  catalog : Except String Catalog
  records : String → Int → Int → Option String → Option String → Except String RecordsResp
  info : String → Except String String

/-- One item of a tool result's `content` array. -/
structure ContentItem where
  type : String
  text : String
deriving DecidableEq, Repr

/-- A successful tools/call result as built by `src/mcpServer.js` (its
success results carry only `content`; no `isError` field is ever set on
this path). -/
structure ToolResult where
  content : List ContentItem
deriving DecidableEq, Repr

/-- One entry of the resources/list result. -/
structure ResourceDesc where
  uri : String
  name : String
  description : String
  mimeType : String
deriving DecidableEq, Repr

/-- One entry of the resources/read `contents` array; `uri` echoes the
request's possibly-undefined uri. -/
structure ResContent where
  uri : Option String
  mimeType : String
  text : String
deriving DecidableEq, Repr

/-- Content of one prompt message: plain text, or the synthesized
tool-call suggestion built by `find_cultural_sites`. -/
inductive MsgContent
  | text (t : String)
  | toolCall (toolCallId toolName dataset_id : String) (limit : Int)
deriving DecidableEq, Repr

/-- One entry of a prompts/get `messages` array. -/
structure PromptMessage where
  role : String
  content : MsgContent
deriving DecidableEq, Repr

/-- The result object produced by `handleRequestDirectly` for each
method. The static payloads of `initialize`, tools/list and prompts/list
are literal objects in the source that no claim inspects, so they are
represented by bare constructors. -/
inductive McpResult
  | initResult
  | toolsList
  | toolResult (r : ToolResult)
  | resourceList (rs : List ResourceDesc)
  | readResult (contents : List ResContent) (isError : Bool)
  | promptsList
  | promptsGet (messages : List PromptMessage)
deriving DecidableEq, Repr

/-- Stand-in for `JSON.stringify(x, null, 2)` on a list of datasets: the
exact JSON text layout is abstracted, but which entries appear (by id) is
preserved. -/
def stringifyDatasets (l : List Dataset) : String :=
  "[" ++ String.intercalate ", " (l.map (fun ds => ds.datasetid)) ++ "]"

/-- Stand-in for `JSON.stringify(records, null, 2)`. -/
def stringifyRecords (l : List String) : String :=
  "[" ++ String.intercalate ", " l ++ "]"

/-- Stand-in for `JSON.stringify(catalog, null, 2)`. -/
def stringifyCatalog (c : Catalog) : String :=
  match c.datasets with
  | none => "(catalog)"
  | some l => "(catalog: " ++ stringifyDatasets l ++ ")"

/-- Decidable equality for `Except`, used to evaluate handler outcomes on
concrete inputs. -/
instance {ε α : Type} [DecidableEq ε] [DecidableEq α] : DecidableEq (Except ε α) := fun x y =>
  match x, y with
  | .ok a, .ok b =>
    if h : a = b then isTrue (congrArg Except.ok h)
    else isFalse (fun hc => h (Except.ok.inj hc))
  | .error a, .error b =>
    if h : a = b then isTrue (congrArg Except.error h)
    else isFalse (fun hc => h (Except.error.inj hc))
  | .ok _, .error _ => isFalse (fun hc => Except.noConfusion hc)
  | .error _, .ok _ => isFalse (fun hc => Except.noConfusion hc)

/-- The two module-level cache variables of `src/mcpServer.js`:
`datasetCatalogCache` and `cacheTimestamp`. -/
structure CacheState where
  datasetCatalogCache : Option Catalog := none
  cacheTimestamp : Option Int := none
deriving DecidableEq, Repr

/-- `const CACHE_TTL = 5 * 60 * 1000` (milliseconds). -/
def CACHE_TTL : Int := 5 * 60 * 1000

/-- Outcome of one `getDatasetCatalog()` call: the returned (or thrown)
value, the cache variables after the call, and whether an upstream fetch
was issued. -/
structure CatalogCall where
  result : Except String Catalog
  state : CacheState
  fetched : Bool
deriving Repr

/-- The fetch branch of `getDatasetCatalog`: issue the upstream GET; on
success store the data and the timestamp, on failure rethrow with the
`Failed to fetch dataset catalog:` wrapper and leave the cache unchanged. -/
def fetchStep (st : CacheState) (now : Int) (fetch : Except String Catalog) : CatalogCall :=
  match fetch with
  | .ok d => ⟨.ok d, ⟨some d, some now⟩, true⟩
  | .error msg => ⟨.error ("Failed to fetch dataset catalog: " ++ msg), st, true⟩

/-- `getDatasetCatalog` of `src/mcpServer.js`: serve from cache while
`datasetCatalogCache && cacheTimestamp && (now - cacheTimestamp) <
CACHE_TTL`, otherwise fetch. Both cache variables are tested for JS
truthiness: a stored catalog is an object and hence always truthy, but a
stored timestamp of `0` is falsy and forces a refetch, so the guard
requires `ts ≠ 0`. `fetch` is the outcome the upstream would give if
called now. -/
def getDatasetCatalog (st : CacheState) (now : Int) (fetch : Except String Catalog) : CatalogCall :=
  match st.datasetCatalogCache, st.cacheTimestamp with
  | some cached, some ts =>
    if ts ≠ 0 ∧ now - ts < CACHE_TTL then ⟨.ok cached, st, false⟩
    else fetchStep st now fetch
  | some _, none => fetchStep st now fetch
  | none, _ => fetchStep st now fetch

/-- Number of upstream fetches issued by one `getDatasetCatalog` call. -/
def fetchCount (c : CatalogCall) : Nat :=
  if c.fetched then 1 else 0

/-- The `arguments` object of tools/call and prompts/get (JS objects are
duck-typed, so one record carries the optional fields read by all tools
and prompts; `whereClause` models the `where` field). -/
structure Args where
  limit : Option Int := none
  offset : Option Int := none
  dataset_id : Option String := none
  whereClause : Option String := none
  select : Option String := none
  query : Option String := none
  location : Option String := none
  transport_type : Option String := none
deriving DecidableEq, Repr

/-- The `params` object of a JSON-RPC request, with the fields read by the
handlers (`name`/`arguments` for tools/call and prompts/get, `uri` for
resources/read). -/
structure Params where
  name : Option String := none
  arguments : Option Args := none
  uri : Option String := none
deriving DecidableEq, Repr

/-- `ds.metas?.default?.title`. -/
def titleOf (ds : Dataset) : Option String :=
  ds.metasDefault.bind (fun m => m.title)

/-- `ds.metas?.default?.description`. -/
def descOf (ds : Dataset) : Option String :=
  ds.metasDefault.bind (fun m => m.description)

/-- `(ds.metas?.default?.keyword || []).join(' ')`. -/
def keywordsOf (ds : Dataset) : String :=
  String.intercalate " " ((ds.metasDefault.bind (fun m => m.keyword)).getD [])

/-- The `search_datasets` filter body: case-insensitive substring match
over title, description and joined keywords. -/
def matchesSearch (ds : Dataset) (searchLower : String) : Bool :=
  jsIncludes (jsOrStr (titleOf ds) "").toLower searchLower ||
  jsIncludes (jsOrStr (descOf ds) "").toLower searchLower ||
  jsIncludes (keywordsOf ds).toLower searchLower

/-- The `datasets.slice(offset, offset + limit)` page of `list_datasets`,
with the source's `args.limit || 100` and `args.offset || 0` defaults. -/
def listDatasetsPage (a : Args) (c : Catalog) : List Dataset :=
  jsSlice (c.datasets.getD []) (jsOrInt a.offset 0)
    (jsOrInt a.offset 0 + jsOrInt a.limit 100)

/-- The `list_datasets` branch of the tools/call handler: fetch the
catalog (a throw propagates), page it with `slice(offset, offset + limit)`
and render the summary text. -/
def listDatasetsTool (args : Args) (env : Env) : Except String ToolResult :=
  match env.catalog with
  | .error msg => .error msg
  | .ok catalog =>
    .ok ⟨[⟨"text", "Found " ++ toString (catalog.datasets.getD []).length ++
      " total datasets. Showing " ++ toString (listDatasetsPage args catalog).length ++
      " datasets (offset: " ++ toString (jsOrInt args.offset 0) ++ "):\n\n" ++
      stringifyDatasets (listDatasetsPage args catalog)⟩]⟩

/-- The tools/call handler registered in `createMCPServer`
(`src/mcpServer.js`). Its surrounding try/catch logs and RETHROWS, so a
thrown error (`.error`) propagates to the caller unchanged; in particular
`query_dataset` without a `dataset_id` throws `dataset_id is required`. -/
def callToolHandler (p : Params) (env : Env) : Except String ToolResult :=
  let args := p.arguments.getD {}
  if p.name = some "list_datasets" then
    listDatasetsTool args env
  else if p.name = some "query_dataset" then
    match args.dataset_id with
    | none => .error "dataset_id is required"
    | some did =>
      if did = "" then .error "dataset_id is required"
      else
        let limit := args.limit.getD 100
        let offset := args.offset.getD 0
        match env.records did limit offset (jsTruthyStr args.whereClause) (jsTruthyStr args.select) with
        | .error msg => .error msg
        | .ok resp =>
          let records := resp.results.getD []
          let totalCount := jsOrInt resp.total_count records.length
          .ok ⟨[⟨"text", "Found " ++ toString totalCount ++
            " records in dataset \"" ++ did ++ "\". Showing " ++
            toString records.length ++ " records:\n\n" ++
            stringifyRecords records⟩]⟩
  else if p.name = some "search_datasets" then
    match args.query with
    | none => .error "query is required"
    | some q =>
      if q = "" then .error "query is required"
      else
        match env.catalog with
        | .error msg => .error msg
        | .ok catalog =>
          let datasets := catalog.datasets.getD []
          let searchLower := q.toLower
          let filtered := jsSlice (datasets.filter (fun ds => matchesSearch ds searchLower)) 0 (args.limit.getD 50)
          .ok ⟨[⟨"text", "Found " ++ toString filtered.length ++
            " datasets matching \"" ++ q ++ "\":\n\n" ++
            stringifyDatasets filtered⟩]⟩
  else if p.name = some "get_dataset_info" then
    match args.dataset_id with
    | none => .error "dataset_id is required"
    | some did =>
      if did = "" then .error "dataset_id is required"
      else
        match env.info did with
        | .error msg => .error msg
        | .ok data =>
          .ok ⟨[⟨"text", "Dataset information for \"" ++ did ++ "\":\n\n" ++ data⟩]⟩
  else .error ("Unknown tool: " ++ jsShowOptStr p.name)

/-- The resources/list handler: the static catalog resource plus one
entry per dataset capped at 100; a catalog fetch failure is caught and
yields the empty list. -/
def listResourcesHandler (env : Env) : List ResourceDesc :=
  match env.catalog with
  | .error _ => []
  | .ok catalog =>
    let datasets := catalog.datasets.getD []
    ⟨"haute-garonne://catalog", "Dataset Catalog",
      "Complete catalog of all available datasets", "application/json"⟩ ::
    (datasets.take 100).map (fun ds =>
      ⟨"haute-garonne://dataset/" ++ ds.datasetid,
        jsOrStr (titleOf ds) ds.datasetid,
        jsOrStr (descOf ds) "No description available",
        "application/json"⟩)

/-- The resources/read handler: URI dispatch with every failure caught and
re-expressed as contents marked `isError := true`. A missing `uri` makes
`uri.startsWith` throw a TypeError in JS, which the same catch turns into
an error-content result (the engine's message text is abstracted). -/
def readResourceHandler (p : Params) (env : Env) : McpResult :=
  match p.uri with
  | none =>
    .readResult [⟨none, "text/plain", "Error reading resource: TypeError on undefined uri"⟩] true
  | some uri =>
    if uri = "haute-garonne://catalog" then
      match env.catalog with
      | .ok catalog =>
        .readResult [⟨some uri, "application/json", stringifyCatalog catalog⟩] false
      | .error msg =>
        .readResult [⟨some uri, "text/plain", "Error reading resource: " ++ msg⟩] true
    else if uri.startsWith "haute-garonne://dataset/" then
      let datasetId := uri.drop "haute-garonne://dataset/".length
      match env.info datasetId with
      | .ok data => .readResult [⟨some uri, "application/json", data⟩] false
      | .error msg =>
        .readResult [⟨some uri, "text/plain", "Error reading resource: " ++ msg⟩] true
    else
      .readResult [⟨some uri, "text/plain",
        "Error reading resource: Unknown resource URI: " ++ uri⟩] true

/-- The `find_cultural_sites` filter body. -/
def isCultural (ds : Dataset) : Bool :=
  let title := (jsOrStr (titleOf ds) "").toLower
  let desc := (jsOrStr (descOf ds) "").toLower
  jsIncludes title "culturel" || jsIncludes title "culture" ||
  jsIncludes desc "culturel" || jsIncludes desc "culture"

/-- The `search_transportation_data` filter body of `src/mcpServer.js`. -/
def isTransport (ds : Dataset) (transportType : String) : Bool :=
  let title := (jsOrStr (titleOf ds) "").toLower
  let desc := (jsOrStr (descOf ds) "").toLower
  let keywords := (keywordsOf ds).toLower
  let searchLower :=
    if transportType = "" then "transport" else ("transport " ++ transportType).toLower
  jsIncludes title searchLower || jsIncludes desc searchLower ||
  jsIncludes keywords searchLower ||
  jsIncludes title "transport" || jsIncludes desc "transport"

/-- The prompts/get handler registered in `createMCPServer`. Every throw
inside the switch — including the catalog fetch failing and the default
`Unknown prompt` branch — is caught and re-expressed as a single message
with role `user` and text `Error: <message>`; the handler itself never
raises a protocol-level error. -/
def getPromptHandler (p : Params) (env : Env) : List PromptMessage :=
  if p.name = some "find_cultural_sites" then
    let location := jsOrStr (p.arguments.bind (fun a => a.location)) ""
    match env.catalog with
    | .error msg => [⟨"user", .text ("Error: " ++ msg)⟩]
    | .ok catalog =>
      let datasets := catalog.datasets.getD []
      let culturalDatasets := datasets.filter isCultural
      let base : List PromptMessage :=
        [⟨"user", .text ("Find cultural sites" ++
          (if location = "" then "" else " in " ++ location) ++ " in Haute Garonne.")⟩]
      match culturalDatasets with
      | [] => base
      | ds0 :: _ =>
        base ++
        [⟨"assistant", .text ("I found " ++ toString culturalDatasets.length ++
          " cultural-related datasets. Let me query the most relevant one: \"" ++
          jsOrStr (titleOf ds0) ds0.datasetid ++ "\".")⟩,
         ⟨"user", .toolCall "call-1" "query_dataset" ds0.datasetid 50⟩]
  else if p.name = some "search_transportation_data" then
    let transportType := jsOrStr (p.arguments.bind (fun a => a.transport_type)) ""
    match env.catalog with
    | .error msg => [⟨"user", .text ("Error: " ++ msg)⟩]
    | .ok catalog =>
      let datasets := catalog.datasets.getD []
      let transportDatasets := datasets.filter (fun ds => isTransport ds transportType)
      let base : List PromptMessage :=
        [⟨"user", .text ("Search for transportation data" ++
          (if transportType = "" then "" else " related to " ++ transportType) ++
          " in Haute Garonne.")⟩]
      match transportDatasets with
      | [] => base
      | _ :: _ =>
        base ++
        [⟨"assistant", .text ("I found " ++ toString transportDatasets.length ++
          " transportation-related datasets. Here are the most relevant ones:\n\n" ++
          String.intercalate "\n"
            ((transportDatasets.take 5).enum.map (fun pr =>
              toString (pr.1 + 1) ++ ". " ++ jsOrStr (titleOf pr.2) pr.2.datasetid)))⟩]
  else [⟨"user", .text ("Error: Unknown prompt: " ++ jsShowOptStr p.name)⟩]

/-- `handleRequestDirectly` of `src/mcpServer.js`: route one
`(method, params)` pair to the registered handler (all handlers are
registered by `createMCPServer`, so the `handler not found` branches are
dead), return `none` for every `notifications/*` method, and throw
`Unknown method: <m>` otherwise. The handlers receive `params || {}`. -/
def handleRequestDirectly (m : String) (params : Option Params) (env : Env) :
    Except String (Option McpResult) :=
  if m = "initialize" then .ok (some .initResult)
  else if m = "notifications/initialized" then .ok none
  else if m = "notifications/cancelled" then .ok none
  else if m.startsWith "notifications/" then .ok none
  else if m = "tools/list" then .ok (some .toolsList)
  else if m = "tools/call" then
    match callToolHandler (params.getD {}) env with
    | .ok r => .ok (some (.toolResult r))
    | .error msg => .error msg
  else if m = "resources/list" then .ok (some (.resourceList (listResourcesHandler env)))
  else if m = "resources/read" then .ok (some (readResourceHandler (params.getD {}) env))
  else if m = "prompts/list" then .ok (some .promptsList)
  else if m = "prompts/get" then .ok (some (.promptsGet (getPromptHandler (params.getD {}) env)))
  else .error ("Unknown method: " ++ m)

/-- The JSON-RPC `id` of a parsed request as JavaScript sees it: the field
may be absent (`undefined`), JSON `null`, a number or a string. -/
inductive JsId
  | undef
  | null
  | num (n : Int)
  | str (s : String)
deriving DecidableEq, Repr

/-- `request.id ?? null`: the nullish-coalescing normalisation the
dispatcher applies before echoing the id. -/
def idOrNull (i : JsId) : JsId :=
  match i with
  | .undef => .null
  | .null => .null
  | .num n => .num n
  | .str s => .str s

/-- A parsed JSON-RPC envelope: `jsonrpc` and `method` may be absent. -/
structure Envelope where
  jsonrpc : Option String := none
  id : JsId := .undef
  method : Option String := none
  params : Option Params := none
deriving DecidableEq, Repr

/-- The body of a stateless POST, after the `JSON.parse` attempt. -/
inductive StBody
  | malformed
  | parsed (e : Envelope)
deriving DecidableEq, Repr

/-- The body the dispatcher writes on the HTTP response. -/
inductive RespBody
  | empty
  | jsonRpcResult (id : JsId) (result : McpResult)
  | jsonRpcError (id : JsId) (code : Int) (message : String) (data : Option String)
  | sessionNotFound (sessionId : String) (activeSessions : List String)
deriving DecidableEq, Repr

/-- One HTTP response written by the dispatcher. -/
structure HttpReply where
  status : Nat
  body : RespBody
deriving DecidableEq, Repr

/-- Whether a response body is a JSON-RPC response object
(`result` or `error` envelope). -/
def isRpcBody (b : RespBody) : Bool :=
  match b with
  | .jsonRpcResult _ _ => true
  | .jsonRpcError _ _ _ _ => true
  | _ => false

/-- Outcome of dispatching one POST to `/message`: either the dispatcher
writes exactly one HTTP response itself, or it hands the request/response
pair to the live channel of the named session
(`transport.handlePostMessage`). -/
inductive PostOutcome
  | direct (r : HttpReply)
  | forward (sessionId : String)
deriving DecidableEq, Repr

/-- Session-id resolution of the POST branch of `handler`
(`src/httpServer.js`): take `sessionId` from the query string (`""` is
falsy, hence treated as absent); if absent and exactly one session is
live, infer that session's id (guarded by the id's own truthiness); if
absent and several sessions are live, log and proceed with none. The
registry is the key list of `activeTransports` in insertion order. -/
def resolveSessionId (registry : List String) (query : Option String) : Option String :=
  let fromQuery :=
    match query with
    | some s => if s = "" then none else some s
    | none => none
  match fromQuery with
  | some s => some s
  | none =>
    if registry.length = 1 then
      match registry.head? with
      | some s => if s = "" then none else some s
      | none => none
    else none

/-- The stateless branch of the POST handler: parse failure → 400 with
code -32700; envelope not carrying `jsonrpc: "2.0"` and a truthy `method`
→ 400 with code -32600; otherwise invoke `handleRequestDirectly`. A throw
is swallowed into 204 with empty body for a notification (`id` absent or
null) and becomes 500 with code -32603 and the message as `data`
otherwise; a `null` handler result yields 204 with empty body; any other
result yields 200 with
`{jsonrpc, id: request.id ?? null, result}`. -/
def statelessPost (b : StBody) (env : Env) : HttpReply :=
  match b with
  | .malformed => ⟨400, .jsonRpcError .null (-32700) "Parse error" none⟩
  | .parsed e =>
    if e.jsonrpc ≠ some "2.0" ∨ e.method.getD "" = "" then
      ⟨400, .jsonRpcError (idOrNull e.id) (-32600) "Invalid Request" none⟩
    else
      match handleRequestDirectly (e.method.getD "") e.params env with
      | .error msg =>
        if e.id = JsId.undef ∨ e.id = JsId.null then ⟨204, .empty⟩
        else ⟨500, .jsonRpcError (idOrNull e.id) (-32603) "Internal error" (some msg)⟩
      | .ok none => ⟨204, .empty⟩
      | .ok (some r) => ⟨200, .jsonRpcResult (idOrNull e.id) r⟩

/-- The POST `/message` branch of `handler`: resolve the session id; with
none, run the stateless path; with one, forward to the matching live
channel, or answer 404 with a body carrying the unknown id and the list
of currently active session ids when the lookup fails. -/
def dispatchPost (registry : List String) (query : Option String) (b : StBody) (env : Env) :
    PostOutcome :=
  match resolveSessionId registry query with
  | none => .direct (statelessPost b env)
  | some sid =>
    if sid ∈ registry then .forward sid
    else .direct ⟨404, .sessionNotFound sid registry⟩

/-- A catalog entry matching the cultural filter. -/
def dsA : Dataset :=
  { datasetid := "musees",
    metasDefault := some
      { title := some "Musees et sites culturels",
        description := some "Liste des sites culturels",
        keyword := some ["culture"] } }

/-- A catalog entry matching the transportation filter. -/
def dsB : Dataset :=
  { datasetid := "bus-lines",
    metasDefault := some
      { title := some "Reseau de transport",
        description := some "Lignes de bus",
        keyword := some ["transport", "bus"] } }

/-- A small concrete catalog used by witnesses. -/
def sampleCatalog : Catalog := { datasets := some [dsA, dsB] }

/-- A second concrete catalog used to observe a cache refresh. -/
def catalogB : Catalog := { datasets := some [dsB] }

/-- An environment whose every upstream call fails. -/
def sampleEnv : Env :=
  { catalog := .error "Failed to fetch dataset catalog: upstream down",
    records := fun _ _ _ _ _ => .error "upstream down",
    info := fun _ => .error "upstream down" }

/-- An environment whose upstream calls succeed against `sampleCatalog`. -/
def okEnv : Env :=
  { catalog := .ok sampleCatalog,
    records := fun did _ _ _ _ => .ok { results := some ["record-of-" ++ did], total_count := some 1 },
    info := fun did => .ok ("info-" ++ did) }

/-- `request.id ?? null` is the identity on every id that is actually
present (not `undefined`). -/
theorem idOrNull_of_ne_undef (i : JsId) (h : i ≠ JsId.undef) : idOrNull i = i := by
  cases i
  · exact absurd rfl h
  · rfl
  · rfl
  · rfl

/-- When no session id is given or inferred, a POST is handled by the
stateless path. -/
theorem dispatchPost_stateless (registry : List String) (query : Option String)
    (b : StBody) (env : Env) (h : resolveSessionId registry query = none) :
    dispatchPost registry query b env = .direct (statelessPost b env) := by
  unfold dispatchPost
  rw [h]

/-- Routing of `tools/call` inside `handleRequestDirectly`. -/
theorem handleRequestDirectly_toolsCall (p : Option Params) (env : Env) :
    handleRequestDirectly "tools/call" p env =
      match callToolHandler (p.getD {}) env with
      | .ok r => .ok (some (.toolResult r))
      | .error msg => .error msg := rfl

/-- Routing of `prompts/get` inside `handleRequestDirectly`. -/
theorem handleRequestDirectly_promptsGet (p : Option Params) (env : Env) :
    handleRequestDirectly "prompts/get" p env =
      .ok (some (.promptsGet (getPromptHandler (p.getD {}) env))) := rfl

/-- Claim C1, counterexample: a stateless POST carrying a notification
(id absent) that names method `tools/list` has a handler that succeeds
with a non-null result, and the dispatcher answers HTTP 200 with a
JSON-RPC result body whose id is null — not HTTP 204 with an empty body
as the claim states for every method. -/
theorem c1_counterexample :
    dispatchPost [] none (.parsed ⟨some "2.0", .undef, some "tools/list", none⟩) sampleEnv =
      .direct ⟨200, .jsonRpcResult .null .toolsList⟩ ∧
    dispatchPost [] none (.parsed ⟨some "2.0", .undef, some "tools/list", none⟩) sampleEnv ≠
      .direct ⟨204, .empty⟩ := by
  decide

/-- Claim C1 (amended): for a stateless POST carrying a notification (id
absent or null) with an accepted envelope, the dispatcher answers HTTP 204
with an empty body exactly when the handler throws or returns null (as
every `notifications/*` method does); when the handler succeeds with a
non-null result the dispatcher instead answers HTTP 200 with a JSON-RPC
result body whose id is null. -/
theorem c1_notification_response (registry : List String) (query : Option String)
    (e : Envelope) (env : Env)
    (hres : resolveSessionId registry query = none)
    (hv : e.jsonrpc = some "2.0") (hm : e.method.getD "" ≠ "")
    (hnotif : e.id = JsId.undef ∨ e.id = JsId.null) :
    ((∀ r, handleRequestDirectly (e.method.getD "") e.params env ≠ .ok (some r)) →
      dispatchPost registry query (.parsed e) env = .direct ⟨204, .empty⟩) ∧
    (∀ r, handleRequestDirectly (e.method.getD "") e.params env = .ok (some r) →
      dispatchPost registry query (.parsed e) env = .direct ⟨200, .jsonRpcResult .null r⟩) := by
  have hval : ¬(e.jsonrpc ≠ some "2.0" ∨ e.method.getD "" = "") := by simp [hv, hm]
  have hid : idOrNull e.id = JsId.null := by
    rcases hnotif with h | h <;> rw [h] <;> rfl
  rw [dispatchPost_stateless registry query (.parsed e) env hres]
  constructor
  · intro hno
    simp only [statelessPost]
    rw [if_neg hval]
    split
    · rw [if_pos hnotif]
    · rfl
    · rename_i r hh
      exact absurd hh (hno r)
  · intro r hr
    simp only [statelessPost]
    rw [if_neg hval]
    split
    · rename_i msg hh
      rw [hr] at hh
      simp at hh
    · rename_i hh
      rw [hr] at hh
      simp at hh
    · rename_i r0 hh
      rw [hr] at hh
      have hr0 : r0 = r := by
        have := Except.ok.inj hh
        exact (Option.some.inj this).symm
      rw [hid, hr0]

/-- Claim C1, witness: a `tools/list` notification is answered HTTP 200
with a JSON-RPC body of id null (the non-204 side of the amended claim);
the 204 side covers the `notifications/*` methods and every throw. -/
theorem c1_witness :
    dispatchPost [] none (.parsed ⟨some "2.0", .undef, some "tools/list", none⟩) sampleEnv =
      .direct ⟨200, .jsonRpcResult .null .toolsList⟩ :=
  (c1_notification_response [] none ⟨some "2.0", .undef, some "tools/list", none⟩ sampleEnv
    rfl rfl (by decide) (Or.inl rfl)).2 .toolsList (by decide)

/-- Claim C2, counterexample: a stateless POST with an accepted envelope,
id present (1) and method `notifications/initialized` is a
non-notification request whose handler returns null, and the dispatcher
answers HTTP 204 with an empty body — zero JSON-RPC response bodies, not
exactly one as the claim states for every method. -/
theorem c2_counterexample :
    dispatchPost [] none (.parsed ⟨some "2.0", .num 1, some "notifications/initialized", none⟩) sampleEnv =
      .direct ⟨204, .empty⟩ ∧
    isRpcBody .empty = false := by
  decide

/-- Claim C2 (amended): a stateless POST carrying an accepted
non-notification request whose handler does not return null (i.e. whose
method is not of the `notifications/*` family) is answered with exactly
one JSON-RPC response body — a result or an error envelope; the model
writes exactly one `HttpReply` by construction, so a second response is
impossible. -/
theorem c2_single_response (registry : List String) (query : Option String)
    (e : Envelope) (env : Env)
    (hres : resolveSessionId registry query = none)
    (hv : e.jsonrpc = some "2.0") (hm : e.method.getD "" ≠ "")
    (hid : e.id ≠ JsId.undef ∧ e.id ≠ JsId.null)
    (hnn : handleRequestDirectly (e.method.getD "") e.params env ≠ .ok none) :
    ∃ st b, dispatchPost registry query (.parsed e) env = .direct ⟨st, b⟩ ∧
      isRpcBody b = true := by
  have hval : ¬(e.jsonrpc ≠ some "2.0" ∨ e.method.getD "" = "") := by simp [hv, hm]
  have hnotif : ¬(e.id = JsId.undef ∨ e.id = JsId.null) := by
    rcases hid with ⟨h1, h2⟩
    rintro (h | h) <;> contradiction
  rw [dispatchPost_stateless registry query (.parsed e) env hres]
  simp only [statelessPost]
  rw [if_neg hval]
  split
  · rename_i msg hh
    exact ⟨500, .jsonRpcError (idOrNull e.id) (-32603) "Internal error" (some msg),
      by rw [if_neg hnotif], rfl⟩
  · rename_i hh
    exact absurd hh hnn
  · rename_i r hh
    exact ⟨200, .jsonRpcResult (idOrNull e.id) r, rfl, rfl⟩

/-- Claim C2, witness: a stateless `tools/list` request with id 1 gets
exactly one JSON-RPC response body. -/
theorem c2_witness :
    ∃ st b, dispatchPost [] none (.parsed ⟨some "2.0", .num 1, some "tools/list", none⟩) sampleEnv =
      .direct ⟨st, b⟩ ∧ isRpcBody b = true :=
  c2_single_response [] none ⟨some "2.0", .num 1, some "tools/list", none⟩ sampleEnv rfl rfl
    (by decide) ⟨by decide, by decide⟩ (by decide)

/-- Claim C3, counterexample: a stateless `tools/call` of `query_dataset`
with empty arguments (no `dataset_id`) makes the registered handler THROW
`dataset_id is required` (its catch block rethrows), and the dispatcher
answers HTTP 500 with a JSON-RPC protocol-error body of code -32603 — not
a successful MCP result carrying `isError: true` as the claim states. -/
theorem c3_counterexample :
    callToolHandler ⟨some "query_dataset", some {}, none⟩ sampleEnv =
      .error "dataset_id is required" ∧
    dispatchPost [] none
      (.parsed ⟨some "2.0", .num 7, some "tools/call", some ⟨some "query_dataset", some {}, none⟩⟩)
      sampleEnv =
      .direct ⟨500, .jsonRpcError (.num 7) (-32603) "Internal error" (some "dataset_id is required")⟩ := by
  decide

/-- The 500 branch of the stateless path: an accepted non-notification
request whose handler throws is answered HTTP 500 with the internal-error
envelope carrying the thrown message as `data`. -/
theorem statelessPost_error_request (e : Envelope) (env : Env) (msg : String)
    (hv : e.jsonrpc = some "2.0") (hm : e.method.getD "" ≠ "")
    (hnotif : ¬(e.id = JsId.undef ∨ e.id = JsId.null))
    (hh : handleRequestDirectly (e.method.getD "") e.params env = .error msg) :
    statelessPost (.parsed e) env =
      ⟨500, .jsonRpcError (idOrNull e.id) (-32603) "Internal error" (some msg)⟩ := by
  have hval : ¬(e.jsonrpc ≠ some "2.0" ∨ e.method.getD "" = "") := by simp [hv, hm]
  simp only [statelessPost]
  rw [if_neg hval]
  split
  · rename_i m hhe
    rw [hh] at hhe
    rw [if_neg hnotif]
    have hm0 : m = msg := (Except.error.inj hhe).symm
    rw [hm0]
  · rename_i hhe
    rw [hh] at hhe
    simp at hhe
  · rename_i r hhe
    rw [hh] at hhe
    simp at hhe

/-- The 200 branch of the stateless path: a request whose handler
succeeds with a non-null result is answered HTTP 200 with the result
envelope and the `?? null`-normalised request id. -/
theorem statelessPost_ok (e : Envelope) (env : Env) (r : McpResult)
    (hv : e.jsonrpc = some "2.0") (hm : e.method.getD "" ≠ "")
    (hh : handleRequestDirectly (e.method.getD "") e.params env = .ok (some r)) :
    statelessPost (.parsed e) env = ⟨200, .jsonRpcResult (idOrNull e.id) r⟩ := by
  have hval : ¬(e.jsonrpc ≠ some "2.0" ∨ e.method.getD "" = "") := by simp [hv, hm]
  simp only [statelessPost]
  rw [if_neg hval]
  split
  · rename_i m hhe
    rw [hh] at hhe
    simp at hhe
  · rename_i hhe
    rw [hh] at hhe
    simp at hhe
  · rename_i r0 hhe
    rw [hh] at hhe
    have hr0 : r0 = r := (Option.some.inj (Except.ok.inj hhe)).symm
    rw [hr0]

/-- Claim C3 (amended): a stateless non-notification `tools/call` of
`query_dataset` whose arguments lack a truthy `dataset_id` is answered
HTTP 500 with a JSON-RPC error of code -32603 whose `data` names the
missing field (`dataset_id is required`); the error is thrown past the
tool handler rather than wrapped as `isError` content. -/
theorem c3_missing_dataset_id (registry : List String) (query : Option String)
    (i : JsId) (a : Args) (env : Env)
    (hres : resolveSessionId registry query = none)
    (hid : i ≠ JsId.undef ∧ i ≠ JsId.null)
    (hda : a.dataset_id = none ∨ a.dataset_id = some "") :
    dispatchPost registry query
      (.parsed ⟨some "2.0", i, some "tools/call", some ⟨some "query_dataset", some a, none⟩⟩) env =
      .direct ⟨500, .jsonRpcError i (-32603) "Internal error" (some "dataset_id is required")⟩ := by
  have hnotif : ¬(i = JsId.undef ∨ i = JsId.null) := by
    rcases hid with ⟨h1, h2⟩
    rintro (h | h) <;> contradiction
  have hcall : callToolHandler ⟨some "query_dataset", some a, none⟩ env =
      .error "dataset_id is required" := by
    obtain ⟨lim, off, did, w, sel, q, loc, tt⟩ := a
    rcases hda with h | h <;> (simp at h; subst h; rfl)
  have hh : handleRequestDirectly "tools/call"
      (some ⟨some "query_dataset", some a, none⟩) env = .error "dataset_id is required" := by
    rw [handleRequestDirectly_toolsCall]
    simp only [Option.getD]
    rw [hcall]
  rw [dispatchPost_stateless registry query _ env hres,
    statelessPost_error_request
      ⟨some "2.0", i, some "tools/call", some ⟨some "query_dataset", some a, none⟩⟩
      env "dataset_id is required" rfl (by simp) hnotif hh]
  simp [idOrNull_of_ne_undef i hid.1]

/-- Claim C3, witness: the concrete missing-`dataset_id` call with id 7
gets the 500 internal-error answer naming the field. -/
theorem c3_witness :
    dispatchPost [] none
      (.parsed ⟨some "2.0", .num 7, some "tools/call", some ⟨some "query_dataset", some ({} : Args), none⟩⟩)
      sampleEnv =
      .direct ⟨500, .jsonRpcError (.num 7) (-32603) "Internal error" (some "dataset_id is required")⟩ :=
  c3_missing_dataset_id [] none (.num 7) {} sampleEnv rfl ⟨by decide, by decide⟩ (Or.inl rfl)

/-- Claim C4: the JSON-RPC response of every successful stateless
non-notification call echoes the request id exactly: with the id present
and non-null, `request.id ?? null` is the identity, so the 200 result
envelope carries `e.id` itself — including id 0 and string ids. -/
theorem c4_id_echo (registry : List String) (query : Option String)
    (e : Envelope) (env : Env) (r : McpResult)
    (hres : resolveSessionId registry query = none)
    (hv : e.jsonrpc = some "2.0") (hm : e.method.getD "" ≠ "")
    (hid : e.id ≠ JsId.undef ∧ e.id ≠ JsId.null)
    (hh : handleRequestDirectly (e.method.getD "") e.params env = .ok (some r)) :
    dispatchPost registry query (.parsed e) env =
      .direct ⟨200, .jsonRpcResult e.id r⟩ := by
  rw [dispatchPost_stateless registry query _ env hres,
    statelessPost_ok e env r hv hm hh, idOrNull_of_ne_undef e.id hid.1]

/-- Claim C4, witness: a `tools/list` request with the number id 0 is
answered with a result envelope whose id is exactly 0. -/
theorem c4_witness :
    dispatchPost [] none (.parsed ⟨some "2.0", .num 0, some "tools/list", none⟩) sampleEnv =
      .direct ⟨200, .jsonRpcResult (.num 0) .toolsList⟩ :=
  c4_id_echo [] none ⟨some "2.0", .num 0, some "tools/list", none⟩ sampleEnv .toolsList rfl rfl
    (by decide) ⟨by decide, by decide⟩ (by decide)

/-- Claim C5: a POST with no sessionId in the query string is forwarded
to the single live session when the registry holds exactly one (its id,
being a minted non-empty string, is inferred and always resolves), and
proceeds with no session id — falling into the stateless path — when the
registry holds more than one live session. -/
theorem c5_session_inference (registry : List String) (b : StBody) (env : Env) :
    (∀ s, registry = [s] → s ≠ "" → dispatchPost registry none b env = .forward s) ∧
    (1 < registry.length → dispatchPost registry none b env = .direct (statelessPost b env)) := by
  constructor
  · rintro s rfl hs
    unfold dispatchPost resolveSessionId
    simp [hs]
  · intro hlen
    have hne : registry.length ≠ 1 := by omega
    unfold dispatchPost resolveSessionId
    simp [hne]

/-- Claim C5, witness: with one live session `a` the sessionless POST is
forwarded to `a`; with two live sessions it runs the stateless path. -/
theorem c5_witness :
    dispatchPost ["a"] none .malformed sampleEnv = .forward "a" ∧
    dispatchPost ["a", "b"] none .malformed sampleEnv =
      .direct (statelessPost .malformed sampleEnv) :=
  ⟨(c5_session_inference ["a"] .malformed sampleEnv).1 "a" rfl (by decide),
   (c5_session_inference ["a", "b"] .malformed sampleEnv).2 (by decide)⟩

/-- Claim C6: a stateful POST whose given session id resolves to no live
session is answered HTTP 404 with a body carrying the unknown id and the
(possibly empty) list of currently active session ids; the dispatch
function is total, so no exception escapes. -/
theorem c6_unknown_session (registry : List String) (sid : String) (b : StBody) (env : Env)
    (hne : sid ≠ "") (hnm : sid ∉ registry) :
    dispatchPost registry (some sid) b env =
      .direct ⟨404, .sessionNotFound sid registry⟩ := by
  unfold dispatchPost resolveSessionId
  simp [hne, hnm]

/-- Claim C6, witness: an unknown id against two live sessions gets the
404 with both active ids listed. -/
theorem c6_witness :
    dispatchPost ["a", "b"] (some "zzz") .malformed sampleEnv =
      .direct ⟨404, .sessionNotFound "zzz" ["a", "b"]⟩ :=
  c6_unknown_session ["a", "b"] "zzz" .malformed sampleEnv (by decide) (by decide)

/-- Claim C7, counterexample: a POST without a session id in the query
string but with exactly one live session is not answered 400 with code
-32700 even when its body is malformed — the single-session inference
fires first and the request is forwarded to that session's channel. -/
theorem c7_counterexample :
    dispatchPost ["a"] none .malformed sampleEnv = .forward "a" ∧
    dispatchPost ["a"] none .malformed sampleEnv ≠
      .direct ⟨400, .jsonRpcError .null (-32700) "Parse error" none⟩ := by
  decide

/-- Claim C7 (amended): a POST to the stream endpoint without a session
id whose body is not parseable as JSON is answered HTTP 400 with a
JSON-RPC error of code -32700, provided the registry does not hold
exactly one live session (in which case the id is inferred and the raw
request is forwarded to that session instead). -/
theorem c7_parse_error (registry : List String) (env : Env)
    (h : registry.length ≠ 1) :
    dispatchPost registry none .malformed env =
      .direct ⟨400, .jsonRpcError .null (-32700) "Parse error" none⟩ := by
  unfold dispatchPost resolveSessionId
  simp [h, statelessPost]

/-- Claim C7, witness: with no live session the malformed body gets the
400 parse-error answer. -/
theorem c7_witness :
    dispatchPost [] none .malformed sampleEnv =
      .direct ⟨400, .jsonRpcError .null (-32700) "Parse error" none⟩ :=
  c7_parse_error [] sampleEnv (by decide)

/-- Claim C8: starting from the empty cache, the first catalog-backed
call fetches and fills the single global slot with the data and its
timestamp; a second call within the TTL window of that fetch serves the
cached value with no upstream fetch and leaves the slot unchanged — so
the two calls issue exactly one fetch between them; a third call issued
at or after TTL expiry fetches again and refreshes the slot. The fetch
time `t0` is `Date.now()`, which is never the JS-falsy `0`, hence the
`t0 ≠ 0` hypothesis. -/
theorem c8_cache_ttl (t0 t1 t2 : Int) (d d2 : Catalog) (f2 : Except String Catalog)
    (h0 : t0 ≠ 0) (h1 : t1 - t0 < CACHE_TTL) (h2 : CACHE_TTL ≤ t2 - t0) :
    getDatasetCatalog ⟨none, none⟩ t0 (.ok d) = ⟨.ok d, ⟨some d, some t0⟩, true⟩ ∧
    getDatasetCatalog ⟨some d, some t0⟩ t1 f2 = ⟨.ok d, ⟨some d, some t0⟩, false⟩ ∧
    getDatasetCatalog ⟨some d, some t0⟩ t2 (.ok d2) = ⟨.ok d2, ⟨some d2, some t2⟩, true⟩ ∧
    fetchCount ⟨.ok d, ⟨some d, some t0⟩, true⟩ +
      fetchCount ⟨.ok d, ⟨some d, some t0⟩, false⟩ = 1 := by
  refine ⟨rfl, ?_, ?_, rfl⟩
  · show (if t0 ≠ 0 ∧ t1 - t0 < CACHE_TTL then (⟨.ok d, ⟨some d, some t0⟩, false⟩ : CatalogCall)
        else fetchStep ⟨some d, some t0⟩ t1 f2) = ⟨.ok d, ⟨some d, some t0⟩, false⟩
    rw [if_pos ⟨h0, h1⟩]
  · show (if t0 ≠ 0 ∧ t2 - t0 < CACHE_TTL then (⟨.ok d, ⟨some d, some t0⟩, false⟩ : CatalogCall)
        else fetchStep ⟨some d, some t0⟩ t2 (.ok d2)) = ⟨.ok d2, ⟨some d2, some t2⟩, true⟩
    rw [if_neg (fun hc => absurd hc.2 (by omega))]
    rfl

/-- Claim C8, witness: a fetch at time 5, a cached call at time 1000 (one
fetch in total, even with the upstream now failing), and a refreshing
fetch at time 300005 = 5 + CACHE_TTL. -/
theorem c8_witness :
    getDatasetCatalog ⟨none, none⟩ 5 (.ok sampleCatalog) =
      ⟨.ok sampleCatalog, ⟨some sampleCatalog, some 5⟩, true⟩ ∧
    getDatasetCatalog ⟨some sampleCatalog, some 5⟩ 1000 (.error "boom") =
      ⟨.ok sampleCatalog, ⟨some sampleCatalog, some 5⟩, false⟩ ∧
    getDatasetCatalog ⟨some sampleCatalog, some 5⟩ 300005 (.ok catalogB) =
      ⟨.ok catalogB, ⟨some catalogB, some 300005⟩, true⟩ ∧
    fetchCount ⟨.ok sampleCatalog, ⟨some sampleCatalog, some 5⟩, true⟩ +
      fetchCount ⟨.ok sampleCatalog, ⟨some sampleCatalog, some 5⟩, false⟩ = 1 :=
  c8_cache_ttl 5 1000 300005 sampleCatalog catalogB (.error "boom")
    (by decide) (by decide) (by decide)

/-- Claim C9, counterexample: prompts/get with the unknown name `nope`
returns a well-formed result (no protocol-level error) whose single
message carries the error text with role `user` — no message in the
sequence has role `assistant`, contrary to the claim's "as assistant
text". -/
theorem c9_counterexample :
    handleRequestDirectly "prompts/get" (some ⟨some "nope", none, none⟩) sampleEnv =
      .ok (some (.promptsGet [⟨"user", .text "Error: Unknown prompt: nope"⟩])) ∧
    (getPromptHandler ⟨some "nope", none, none⟩ sampleEnv).all
      (fun m => m.role != "assistant") = true := by
  decide

/-- Claim C9 (amended): for every prompts/get whose name matches no known
prompt, the Protocol Core returns — without raising any protocol-level
error — a well-formed result whose message sequence consists of the error
message `Error: Unknown prompt: <name>` as text with role `user`. -/
theorem c9_unknown_prompt (n : String) (a : Option Args) (env : Env)
    (h1 : n ≠ "find_cultural_sites") (h2 : n ≠ "search_transportation_data") :
    handleRequestDirectly "prompts/get" (some ⟨some n, a, none⟩) env =
      .ok (some (.promptsGet [⟨"user", .text ("Error: Unknown prompt: " ++ n)⟩])) := by
  rw [handleRequestDirectly_promptsGet]
  simp only [Option.getD]
  unfold getPromptHandler
  rw [if_neg (fun hc => h1 (Option.some.inj hc)),
    if_neg (fun hc => h2 (Option.some.inj hc))]
  rfl

/-- Claim C9, witness: the unknown prompt name `zz` gets the user-role
error message and a normally returned result. -/
theorem c9_witness :
    handleRequestDirectly "prompts/get" (some ⟨some "zz", none, none⟩) sampleEnv =
      .ok (some (.promptsGet [⟨"user", .text ("Error: Unknown prompt: " ++ "zz")⟩])) :=
  c9_unknown_prompt "zz" none sampleEnv (by decide) (by decide)

/-- Claim C10: a `tools/call` of `list_datasets` whose arguments carry
`limit: 0` (or no limit at all — both JS-falsy) behaves exactly as if the
limit were the default 100, because the source combines the argument with
the default via `args.limit || 100`: the whole tool result is the one for
limit 100, and with a falsy offset the returned page has
`min 100 n` entries out of a catalog of `n` — not 0. -/
theorem c10_falsy_limit (a : Args) (env : Env) (c : Catalog)
    (hl : a.limit = none ∨ a.limit = some 0) :
    callToolHandler ⟨some "list_datasets", some a, none⟩ env =
      callToolHandler ⟨some "list_datasets", some { a with limit := some 100 }, none⟩ env ∧
    listDatasetsPage a c = listDatasetsPage { a with limit := some 100 } c ∧
    ((a.offset = none ∨ a.offset = some 0) →
      (listDatasetsPage a c).length = min 100 (c.datasets.getD []).length) := by
  have hl100 : jsOrInt a.limit 100 = 100 := by
    rcases hl with h | h <;> simp [jsOrInt, h]
  have hpage : ∀ cc : Catalog, listDatasetsPage a cc = listDatasetsPage { a with limit := some 100 } cc := by
    intro cc
    unfold listDatasetsPage
    rw [hl100]
    simp [jsOrInt]
  refine ⟨?_, hpage c, ?_⟩
  · show listDatasetsTool a env = listDatasetsTool { a with limit := some 100 } env
    unfold listDatasetsTool
    simp only [hpage]
  · intro hoff
    have hoff0 : jsOrInt a.offset 0 = 0 := by
      rcases hoff with h | h <;> simp [jsOrInt, h]
    unfold listDatasetsPage
    rw [hl100, hoff0]
    simp [jsSlice, jsSliceBound, List.length_take, List.length_drop]

/-- The concrete falsy-limit arguments of the C10 witness. -/
def c10args : Args := { limit := some 0 }

/-- Claim C10, witness: at `limit: 0` against the two-entry sample
catalog the call equals the limit-100 call and the page has
`min 100 2 = 2` entries. -/
theorem c10_witness :
    callToolHandler ⟨some "list_datasets", some c10args, none⟩ okEnv =
      callToolHandler ⟨some "list_datasets", some { c10args with limit := some 100 }, none⟩ okEnv ∧
    listDatasetsPage c10args sampleCatalog =
      listDatasetsPage { c10args with limit := some 100 } sampleCatalog ∧
    ((c10args.offset = none ∨ c10args.offset = some 0) →
      (listDatasetsPage c10args sampleCatalog).length =
        min 100 (sampleCatalog.datasets.getD []).length) :=
  c10_falsy_limit c10args okEnv sampleCatalog (Or.inr rfl)
